import Mathlib

/-!
# Verification of the ISADS product-image download pipeline

Shallow embedding of the decision pipeline of the ISADS repository
(URL filtering, download gating, perceptual deduplication, quality
scoring, match-confidence estimation and terminal classification),
translated from `src/main.js`, `src/modules/downloadManager.js`
(DownloadManager and QualityAnalyzer), `src/utils/helpers.js`,
`src/utils/imageValidator.js` and `src/modules/imageSearch.js`.
Numeric scores are embedded as rationals; JavaScript `Map`/`Set`
state is embedded as association lists / lists; the asynchronous
chunked execution is determinised into sequential state passing
(each `downloadSingleImage` call is one atomic step).
-/

namespace ISADS

/-! ## Configuration constants (src/config/settings.js) -/

/-- `config.search.maxImagesPerItem` (settings.js line 9). -/
def maxImagesPerItem : ℕ := 6

/-- `config.download.retryAttempts` (settings.js). -/
def retryAttempts : ℕ := 2

/-- `config.download.backoffMultiplier` (settings.js): 1.5. -/
def backoffMultiplier : ℚ := 3/2

/-- `config.quality.allowedFormats` (settings.js). -/
def allowedFormats : List String := ["jpg", "jpeg", "png"]

/-- `matchThreshold` (imageValidator.js constructor): 0.70. -/
def matchThreshold : ℚ := 7/10

/-- `duplicateThreshold` (imageValidator.js constructor): 0.90. -/
def duplicateThreshold : ℚ := 9/10

/-! ## Classification (src/main.js, `ProductImageDownloader.run`)

Step 4 of `run` collects `nifProducts`: products whose download result is
missing or has `downloaded === 0`; their folders get the NIF suffix.
Step 5 collects `lowConfidenceProducts`: products with
`(p.imageMatchingConfidence || 0) < 0.7 && (p.imageMatchingConfidence || 0) > 0`;
their folders get the NS suffix.  All remaining folders keep the base name. -/

inductive Classification
  | Found
  | NotSure
  | NoImageFound
deriving DecidableEq

/-- main.js line 65: `!result || result.downloaded === 0`. -/
def needsNIF (downloaded : ℕ) : Bool := downloaded == 0

/-- main.js line 73: `(p.imageMatchingConfidence || 0) < 0.7 && (p.imageMatchingConfidence || 0) > 0`. -/
def needsNS (conf : ℚ) : Bool := decide (conf < 7/10) && decide (conf > 0)

/-- Terminal folder classification of an item, from the two folder-rename
passes of `ProductImageDownloader.run` (main.js lines 62-76), as a function
of the item's downloaded-image count and average match confidence. -/
def folderClassification (downloaded : ℕ) (conf : ℚ) : Classification :=
  if needsNIF downloaded then .NoImageFound
  else if needsNS conf then .NotSure
  else .Found

/-- downloadManager.js line 129: average confidence over validated images,
`0` when no image was kept. -/
def averageConfidence (confidences : List ℚ) : ℚ :=
  if confidences.length > 0 then confidences.sum / confidences.length else 0

/-! ## String utilities shared by several modules

JavaScript `String.prototype.includes` is substring containment. -/

/-- JS `hay.includes(pat)`: `pat` occurs as a contiguous substring of `hay`. -/
def strContains (hay pat : String) : Bool :=
  decide (pat.toList <:+: hay.toList)

/-- JS `s.startsWith(pat)`. -/
def strStartsWith (s pat : String) : Bool :=
  decide (pat.toList <+: s.toList)

/-- JS `String.prototype.toLowerCase` (ASCII range, which is all the
sources use). -/
def toLower (s : String) : String := String.mk (s.toList.map Char.toLower)

/-- JS `String.prototype.split(' ')` (on a single-character separator),
keeping empty fragments, here on character lists. -/
def splitOnChar (sep : Char) : List Char → List (List Char)
  | [] => [[]]
  | c :: rest =>
    match splitOnChar sep rest with
    | [] => [[]]
    | cur :: others => if c == sep then [] :: cur :: others else (c :: cur) :: others

/-! ## URL extension handling (src/utils/helpers.js, imageSearch.js)

`new URL(url)` either succeeds, exposing a `pathname`, or throws. We embed
a URL as the outcome of that parse: whether it parsed, the parsed pathname,
and the raw string (used by the catch branches and by the substring-based
deny lists). -/

structure Url where
  valid : Bool
  pathname : String
  raw : String
deriving DecidableEq

/-- The suffix of a path segment starting at its last `.`, when a `.`
occurs. -/
def extAfterLastDot : List Char → Option (List Char)
  | [] => none
  | c :: rest =>
    match extAfterLastDot rest with
    | some e => some e
    | none => if c == '.' then some (c :: rest) else none

/-- Node `path.extname`: the part of the last path segment from its last
dot to the end; empty when the segment has no dot or only a leading dot
(`.bashrc`).  Trailing slashes are ignored, matching `path.posix.extname`. -/
def extname (s : String) : String :=
  let segment := ((s.toList.reverse.dropWhile (· == '/')).takeWhile (· != '/')).reverse
  match extAfterLastDot segment with
  | none => ""
  | some e => if e.length == segment.length then "" else String.mk e

/-- `Helpers.getFileExtension` (helpers.js lines 79-89): extension of the
URL pathname (raw string when parsing failed), lowercased, defaulting to
`.jpg` when empty. -/
def getFileExtension (u : Url) : String :=
  let extension := if u.valid then toLower (extname u.pathname) else toLower (extname u.raw)
  if extension == "" then ".jpg" else extension

/-- JS `extension.replace('.', '')`: removes the first occurrence of `.`. -/
def removeFirstDot : List Char → List Char
  | [] => []
  | c :: rest => if c == '.' then rest else c :: removeFirstDot rest

/-- `Helpers.isAllowedExtension` (helpers.js lines 96-99). -/
def isAllowedExtension (extension : String) : Bool :=
  allowedFormats.contains (String.mk (removeFirstDot (toLower extension).toList))

/-! ## URL filter (imageSearch.js, `ImageSearch.filterImageUrls`, lines 934-998) -/

/-- Deny list of non-product indicators (imageSearch.js lines 952-958). -/
def excludePatterns : List String :=
  ["logo", "icon", "banner", "avatar", "profile",
   "thumbnail", "preview", "sample", "watermark",
   "advertisement", "ad", "button", "social",
   "placeholder", "loading", "default",
   "category", "brand", "store", "seller"]

/-- Small-size indicators (imageSearch.js lines 982-985). -/
def smallImagePatterns : List String :=
  ["_50x50", "_100x100", "_150x150", "_180x180",
   "thumb", "small", "mini", "tiny"]

/-- The per-URL predicate of `filterImageUrls`.  The source also computes
`hasQualityIndicator` from a bonus list, but that flag is never used in the
decision, so it does not appear here.  The `try`/`catch` wrapper around the
predicate body maps any error to `false`; the embedded operations are total. -/
def urlFilterKeeps (u : Url) : Bool :=
  if !u.valid then false
  else if !isAllowedExtension (getFileExtension u) then false
  else
    let urlLower := toLower u.raw
    if excludePatterns.any (fun pattern => strContains urlLower pattern) then false
    else if smallImagePatterns.any (fun pattern => strContains urlLower pattern) then false
    else true

/-- `ImageSearch.filterImageUrls`: pure `Array.prototype.filter` over the
candidate URLs; no network request or other side effect is involved. -/
def filterImageUrls (urls : List Url) : List Url :=
  urls.filter urlFilterKeeps

/-! ## Image validator: perceptual duplicate detection
(src/utils/imageValidator.js, `ImageValidator`)

Fingerprints produced by Jimp's `image.hash()` are 64-bit perceptual
hashes; we embed them as bit lists.  The validator keeps a `Set` of
processed hashes and a `Map` keyed by hash (values are file paths used
only for logging, so only the keys are embedded). -/

structure ValidatorState where
  processedHashes : List (List Bool)
  similarImages : List (List Bool)
deriving DecidableEq

def emptyValidatorState : ValidatorState := ⟨[], []⟩

/-- `ImageValidator.calculateHammingDistance` (imageValidator.js lines
74-82): position-wise difference count, `64` on length mismatch. -/
def calculateHammingDistance (hash1 hash2 : List Bool) : ℕ :=
  if hash1.length != hash2.length then 64
  else ((hash1.zip hash2).filter (fun p => p.1 != p.2)).length

/-- `ImageValidator.isDuplicate` (imageValidator.js lines 39-69), as a
pure step: whether the incoming hash is a duplicate, and the validator
state afterwards.  A hash counts as duplicate when it was already
processed exactly, or when some stored hash is within similarity
`1 - distance/64 ≥ duplicateThreshold`. -/
def isDuplicate (vst : ValidatorState) (hash : List Bool) : Bool × ValidatorState :=
  if vst.processedHashes.contains hash then (true, vst)
  else if vst.similarImages.any
      (fun existingHash =>
        decide ((1 : ℚ) - (calculateHammingDistance hash existingHash : ℚ) / 64 ≥ duplicateThreshold)) then
    (true, vst)
  else (false, ⟨hash :: vst.processedHashes, hash :: vst.similarImages⟩)

/-- `ImageValidator.resetDuplicateDetection` (imageValidator.js lines
374-377): clears both fingerprint collections. -/
def resetDuplicateDetection (_vst : ValidatorState) : ValidatorState :=
  emptyValidatorState

/-! ## Image validator: match confidence
(src/utils/imageValidator.js, `calculateMatchConfidence` and friends) -/

/-- The ad hoc descriptive-word list of `hasDescriptiveWords`
(imageValidator.js lines 383-387). -/
def descriptiveWords : List String :=
  ["acetylene", "welding", "plasma", "safety", "bronze", "chicken", "apple", "iphone", "xiaomi", "pad",
   "cutting", "tip", "rod", "electrode", "glasses", "packing", "ring", "bucket", "pie", "phone",
   "harris", "lincoln", "hypertherm", "3m", "garlock", "jollibee", "popeyes", "clear"]

/-- `ImageValidator.hasDescriptiveWords` (imageValidator.js lines 382-391). -/
def hasDescriptiveWords (filename : String) : Bool :=
  descriptiveWords.any (fun word => strContains (toLower filename) word)

/-- The regex test `/^[a-zA-Z0-9\-_]{8,}/.test(filename)`: at least eight
leading characters drawn from letters, digits, hyphen, underscore. -/
def matchesCrypticPattern (filename : String) : Bool :=
  filename.toList.length ≥ 8 &&
    (filename.toList.take 8).all (fun c => c.isAlphanum || c == '-' || c == '_')

/-- The cryptic-filename detector of `calculateMatchConfidence`
(imageValidator.js line 140). -/
def isCrypticFilename (filename : String) : Bool :=
  matchesCrypticPattern filename && !hasDescriptiveWords filename

/-- JS truthiness test `brandName && brandName !== 'NONE'` for the optional
brand (absent, empty or the sentinel `"NONE"` count as unbranded). -/
def isBranded (brandName : Option String) : Bool :=
  match brandName with
  | none => false
  | some b => b != "" && b != "NONE"

/-- The specificity token count of `calculateEcommerceMatchConfidence`
(imageValidator.js line 409): words of the lowercased product name longer
than two characters. -/
def specificTokenCount (productName : String) : ℕ :=
  ((splitOnChar ' ' (toLower productName).toList).filter (fun token => token.length > 2)).length

/-- `ImageValidator.calculateEcommerceMatchConfidence` (imageValidator.js
lines 396-422): source-trust confidence for cryptic filenames.  Base 0.85;
overridden to 0.95 when branded; +0.05 (capped at 1) when the product name
has at least three descriptive tokens; finally overridden to 0.75 when
unbranded. -/
def calculateEcommerceMatchConfidence (productName : String) (brandName : Option String) : ℚ :=
  let confidence : ℚ := 17/20
  let confidence := if isBranded brandName then 19/20 else confidence
  let confidence :=
    if specificTokenCount productName ≥ 3 then min (confidence + 1/20) 1 else confidence
  let confidence := if !isBranded brandName then 3/4 else confidence
  confidence

/-- The token bundle built by `extractProductTokens` (imageValidator.js
lines 195-251).  The color/material/attribute extraction is substring and
whitespace based; the size lists come from four JS regexes whose matches we
carry as data (the regex engine is host-library behaviour). -/
structure ProductTokens where
  sizes : List String
  colors : List String
  materials : List String
  brands : List String
  attributes : List String
deriving DecidableEq

/-- Color vocabulary of `extractProductTokens` (imageValidator.js line 232). -/
def colorWords : List String :=
  ["red", "blue", "green", "yellow", "black", "white", "gray", "grey", "brown", "pink",
   "purple", "orange", "silver", "gold", "beige", "navy", "maroon"]

/-- Material vocabulary of `extractProductTokens` (imageValidator.js line 240). -/
def materialWords : List String :=
  ["cotton", "polyester", "silk", "wool", "leather", "plastic", "metal", "wood", "glass",
   "ceramic", "rubber", "steel", "aluminum"]

/-- `ImageValidator.extractProductTokens` (imageValidator.js lines
195-251), parameterised by the size-regex matches. -/
def extractProductTokens (productName : String) (brandName : Option String)
    (sizeMatches : List String) : ProductTokens :=
  let text := toLower productName
  let brands :=
    match brandName with
    | some b =>
      if isBranded brandName then
        [toLower b] ++ (if b.toList.length > 3 then [String.mk ((toLower b).toList.take 4)] else [])
      else []
    | none => []
  { sizes := sizeMatches
    colors := colorWords.filter (fun color => strContains text color)
    materials := materialWords.filter (fun material => strContains text material)
    brands := brands
    attributes := (splitOnChar ' ' text.toList).filterMap
      (fun word => if word.length > 2 then some (String.mk word) else none) }

/-- The string cleaning of `calculateTextSimilarity` (imageValidator.js
lines 256-260): lowercase then strip everything but alphanumerics and
whitespace.  The similarity kernel itself (`string-similarity`'s
`compareTwoStrings`, a Dice bigram coefficient) is host-library code and
enters the model as the parameter `sim`. -/
def cleanForSimilarity (s : String) : String :=
  String.mk ((toLower s).toList.filter (fun c => c.isAlphanum || c.isWhitespace))

/-- `calculateTextSimilarity` applied through the similarity kernel. -/
def calculateTextSimilarity (sim : String → String → ℚ) (text1 text2 : String) : ℚ :=
  sim (cleanForSimilarity text1) (cleanForSimilarity text2)

/-- `ImageValidator.calculateAttributeMatch` (imageValidator.js lines
265-302): fraction of size/color/material tokens occurring in the
filename; `0.5` when there are no such tokens. -/
def calculateAttributeMatch (tokens : ProductTokens) (filename : String) : ℚ :=
  let filenameText := toLower filename
  let totalAttributes := tokens.sizes.length + tokens.colors.length + tokens.materials.length
  let matchCount :=
    (tokens.sizes.filter (fun size => strContains filenameText (toLower size))).length +
    (tokens.colors.filter (fun color => strContains filenameText color)).length +
    (tokens.materials.filter (fun material => strContains filenameText material)).length
  if totalAttributes > 0 then (matchCount : ℚ) / totalAttributes else 1/2

/-- `ImageValidator.calculateSizeMatch` (imageValidator.js lines 307-320). -/
def calculateSizeMatch (tokens : ProductTokens) (filename : String) : ℚ :=
  if tokens.sizes.length = 0 then 1/2
  else
    let filenameText := toLower filename
    ((tokens.sizes.filter (fun size => strContains filenameText (toLower size))).length : ℚ) /
      tokens.sizes.length

/-- `ImageValidator.calculateBrandMatch` (imageValidator.js lines
325-368): 0.5 for unbranded items; exact substring match 1.0; first-three
-letter partial match 0.8; short-brand acronym match 1.0; otherwise the
fraction of brand token variants present, or 0. -/
def calculateBrandMatch (tokens : ProductTokens) (filename : String)
    (brandName : Option String) : ℚ :=
  let filenameText := toLower filename
  match brandName with
  | none => 1/2
  | some b =>
    if !(b != "" && b != "NONE") then 1/2
    else
      let brand := toLower b
      if strContains filenameText brand then 1
      else if brand.toList.length > 3 && strContains filenameText (String.mk (brand.toList.take 3)) then 4/5
      else if brand.toList.length ≤ 3 && strContains filenameText brand then 1
      else if tokens.brands.length > 0 then
        ((tokens.brands.filter (fun brandToken => strContains filenameText brandToken)).length : ℚ) /
          tokens.brands.length
      else 0

/-- `ImageValidator.calculateMatchConfidence` (imageValidator.js lines
130-190).  `filename` is the basename of the stored image without its
extension.  Cryptic filenames route to the e-commerce source-trust value;
descriptive filenames combine brand (40%), name similarity (30%),
attributes (20%) and size (10%), with a +0.2 bonus (capped at 1) for a
perfect brand-and-name match, and unbranded items recombined as name 60% /
attributes 30% / size 10%.  The result is clamped by `Math.min(·, 1)`. -/
def calculateMatchConfidence (sim : String → String → ℚ) (tokens : ProductTokens)
    (filename productName : String) (brandName : Option String) : ℚ :=
  if isCrypticFilename filename then
    min (calculateEcommerceMatchConfidence productName brandName) 1
  else
    let brandScore := calculateBrandMatch tokens filename brandName
    let nameScore := calculateTextSimilarity sim filename productName
    let attributeScore := calculateAttributeMatch tokens filename
    let sizeScore := calculateSizeMatch tokens filename
    let confidence := brandScore * (2/5) + nameScore * (3/10) + attributeScore * (1/5) + sizeScore * (1/10)
    let confidence :=
      if isBranded brandName &&
          strContains (toLower filename) (toLower (brandName.getD "")) &&
          decide (calculateTextSimilarity sim filename productName > 4/5) then
        min (confidence + 1/5) 1
      else confidence
    let confidence :=
      if !isBranded brandName then
        nameScore * (3/5) + attributeScore * (3/10) + sizeScore * (1/10)
      else confidence
    min confidence 1

/-! ## Quality analyzer (src/modules/qualityAnalyzer.js, `QualityAnalyzer`)

`analyzeImage` looks only at the buffer's byte length and at the
width/height reported by the image decoder; the background, watermark and
sharpness heuristics are hardcoded ("SPEED OPTIMIZED" branches).  We embed
it as a function of the byte length and the decoded dimensions (`none`
when decoding throws, which routes to the analyzer's catch branch). -/

structure QualityAnalysis where
  isValid : Bool
  score : ℚ
  aspectRatio : ℚ
  fileSize : ℕ
  hasPlainBackground : Bool
  backgroundConfidence : ℚ
  sharpness : ℚ
  hasWatermark : Bool
  watermarkConfidence : ℚ
  isSquare : Bool
  meetsSizeRequirements : Bool
  issues : List String
deriving DecidableEq

/-- `QualityAnalyzer.isSquareImage` (qualityAnalyzer.js lines 687-691):
aspect ratio within [0.95, 1.05]. -/
def isSquareImage (width height : ℕ) : Bool :=
  decide ((19/20 : ℚ) ≤ (width : ℚ) / (height : ℚ)) &&
    decide ((width : ℚ) / (height : ℚ) ≤ 21/20)

/-- `QualityAnalyzer.meetsSizeRequirements` (qualityAnalyzer.js lines
699-705): both dimensions within [600, 1200]. -/
def meetsSizeRequirements (width height : ℕ) : Bool :=
  decide (600 ≤ width) && decide (width ≤ 1200) &&
    decide (600 ≤ height) && decide (height ≤ 1200)

/-- `QualityAnalyzer.calculateStrictQualityScore` (qualityAnalyzer.js
lines 872-897): square 30% + size 25% + background-confidence·30% +
no-watermark 10% + sharpness·5%, clamped by `Math.min(1, ·)`. -/
def calculateStrictQualityScore (analysis : QualityAnalysis) : ℚ :=
  let score : ℚ := 0
  let score := if analysis.isSquare then score + 3/10 else score
  let score := if analysis.meetsSizeRequirements then score + 1/4 else score
  let score := score + analysis.backgroundConfidence * (3/10)
  let score := if !analysis.hasWatermark then score + 1/10 else score
  let score := score + analysis.sharpness * (1/20)
  min 1 score

/-- The freshly initialised analysis record of `analyzeImage`
(qualityAnalyzer.js lines 584-600). -/
def initialAnalysis (fileSize : ℕ) : QualityAnalysis :=
  { isValid := false, score := 0, aspectRatio := 0, fileSize := fileSize
    hasPlainBackground := false, backgroundConfidence := 0, sharpness := 0
    hasWatermark := false, watermarkConfidence := 0
    isSquare := false, meetsSizeRequirements := false, issues := [] }

/-- `QualityAnalyzer.analyzeImage` (qualityAnalyzer.js lines 573-679).
Byte-size gates (10KB-5MB) return early; a decode failure lands in the
catch branch with `isValid = false` and score 0; otherwise the geometry
checks fill the issue list while the background/watermark/sharpness
heuristics are hardcoded to 0.8 / pass / 0.8.  The issue strings omit the
interpolated dimensions of the source messages.  (The per-buffer result
cache is keyed by a content hash of the buffer and only memoises this
same computation, so it is not modelled.) -/
def analyzeImage (fileSize : ℕ) (dimensions : Option (ℕ × ℕ)) : QualityAnalysis :=
  if fileSize < 10000 then
    { initialAnalysis fileSize with issues := ["File size too small"] }
  else if fileSize > 5000000 then
    { initialAnalysis fileSize with issues := ["File size too large"] }
  else
    match dimensions with
    | none => { initialAnalysis fileSize with issues := ["Analysis failed"] }
    | some (width, height) =>
      let square := isSquareImage width height
      let sizeOk := meetsSizeRequirements width height
      let sharpness : ℚ := 4/5
      let issues :=
        (if !square then ["Not square"] else []) ++
        (if !sizeOk then ["Size out of range (600-1200)"] else []) ++
        (if decide (sharpness < 3/10) then ["Image too blurry"] else [])
      let analysis :=
        { initialAnalysis fileSize with
            aspectRatio := (width : ℚ) / (height : ℚ)
            isSquare := square
            meetsSizeRequirements := sizeOk
            hasPlainBackground := true
            backgroundConfidence := 4/5
            hasWatermark := false
            watermarkConfidence := 1/10
            sharpness := sharpness
            issues := issues }
      let analysis :=
        { analysis with
            isValid := issues.isEmpty && square && sizeOk &&
              analysis.hasPlainBackground && !analysis.hasWatermark }
      { analysis with score := calculateStrictQualityScore analysis }

/-! ## Perceptual fingerprint of downloaded buffers -/

/-- Modelled from the spec: the 64-bit perceptual fingerprint of §4.3
("average hash": downsample to a fixed grid, grayscale, bit i = 1 iff
pixel i exceeds the mean).  The repository computes fingerprints through
the host libraries Jimp (`image.hash()`) and sharp, whose code is not
under `src/`; this definition follows the spec's algorithm on the 8×8
grayscale downsample.  `pixel > mean` is expressed integrally as
`n·pixel > sum`. -/
def averageHash (pixels : List ℕ) : List Bool :=
  pixels.map (fun (pixel : ℕ) => decide ((pixels.length : ℚ) * (pixel : ℚ) > (pixels.sum : ℚ)))

/-! ## Retry helper (src/utils/helpers.js, `Helpers.retry`, lines 133-152) -/

/-- The backoff delay slept after a failed attempt:
`baseDelay * backoffMultiplier^(attempt-1)` with `baseDelay = 1000`; the
source applies no upper cap. -/
def backoffDelay (attempt : ℕ) : ℚ :=
  1000 * backoffMultiplier ^ (attempt - 1)

/-- The attempt loop of `Helpers.retry`, unrolled over the remaining
attempt budget: returns whether some attempt succeeded together with the
list of backoff delays slept.  `outcome t` tells whether the `t`-th
(1-based) invocation of the wrapped function succeeds. -/
def retryAux (outcome : ℕ → Bool) (attempt : ℕ) : ℕ → Bool × List ℚ
  | 0 => (false, [])
  | fuel + 1 =>
    if outcome attempt then (true, [])
    else if fuel = 0 then (false, [])
    else
      let rest := retryAux outcome (attempt + 1) fuel
      (rest.1, backoffDelay attempt :: rest.2)

/-- `Helpers.retry fn maxRetries`: attempts `1..maxRetries`, sleeping
`backoffDelay attempt` between consecutive attempts, throwing the last
error when the budget is exhausted. -/
def retryModel (outcome : ℕ → Bool) (maxRetries : ℕ) : Bool × List ℚ :=
  retryAux outcome 1 maxRetries

/-! ## Download manager (src/modules/downloadManager.js, `DownloadManager`)

The manager's session state: the set of MD5 hashes of the 8×8 grayscale
downsamples of accepted images (`downloadedHashes`, constructor line 30),
the per-item accepted-image counters (`itemImageCounts`, line 31) and the
running statistics (lines 32-39).  MD5 is embedded injectively: a hash is
represented by the downsampled byte sequence it digests, so hash equality
is downsample equality. -/

structure DownloadStats where
  totalAttempted : ℕ
  successful : ℕ
  failed : ℕ
  qualityRejected : ℕ
  duplicatesSkipped : ℕ
  lowMatchSkipped : ℕ
deriving DecidableEq

def zeroStats : DownloadStats := ⟨0, 0, 0, 0, 0, 0⟩

structure DMState where
  downloadedHashes : List (List ℕ)
  itemImageCounts : List (String × ℕ)
  stats : DownloadStats
deriving DecidableEq

def initialDMState : DMState := ⟨[], [], zeroStats⟩

/-- `this.itemImageCounts.get(itemId) || 0`. -/
def countFor (st : DMState) (itemId : String) : ℕ :=
  (st.itemImageCounts.lookup itemId).getD 0

/-- JS `Map.prototype.set`: replace the binding or append a new one. -/
def setCount : List (String × ℕ) → String → ℕ → List (String × ℕ)
  | [], key, value => [(key, value)]
  | (k, v) :: rest, key, value =>
    if k == key then (key, value) :: rest else (k, v) :: setCount rest key value

/-- One download attempt's external observations: everything
`downloadSingleImage` learns from the network, the decoder and the file
system for one URL.  `downsample` stands for the 8×8 grayscale raw bytes
fed to MD5 by `generateImageHash`; `analyzedSize`/`analyzedDims` describe
the buffer handed to the quality analyzer (after the best-effort square
re-encode); `savedBase` is the basename (without extension) of the unique
filename `Helpers.generateUniqueFilename` would produce (its MD5-of-
timestamp suffix is host entropy); `statSizeMatches` is the post-write
verification `stats.size === imageBuffer.length`. -/
structure Attempt where
  url : Url
  contentType : String
  fetchOk : Bool
  decodedFormat : Option String
  downsample : List ℕ
  analyzedSize : ℕ
  analyzedDims : Option (ℕ × ℕ)
  savedBase : String
  statSizeMatches : Bool
deriving DecidableEq

inductive DownloadOutcome
  | success
  | capReached
  | badExtension
  | badContentType
  | fetchFailed
  | badFormat
  | duplicate
  | qualityRejected
  | sizeMismatch
deriving DecidableEq

/-- Result of one `downloadSingleImage` call: the outcome (success or the
error class of the thrown message), whether an image file for this attempt
remains written in the output directory when the call finishes, and the
stored file's basename. -/
structure DResult where
  outcome : DownloadOutcome
  fileWritten : Bool
  savedBase : String
deriving DecidableEq

/-- `stats.failed++` performed by the catch block (line 350). -/
def recordFailed (st : DMState) : DMState :=
  { st with stats := { st.stats with failed := st.stats.failed + 1 } }

/-- The URL-extension extraction of `downloadSingleImage` (lines 226-232):
`path.extname(new URL(url).pathname)` lowercased, falling back to
`path.extname(url)` when URL parsing throws; no `.jpg` default here. -/
def downloadUrlExt (u : Url) : String :=
  if u.valid then toLower (extname u.pathname) else toLower (extname u.raw)

/-- `DownloadManager.downloadSingleImage` (downloadManager.js lines
212-353) as one atomic step of the determinised schedule.  Gate order as
in the source: per-item cap (hardcoded 5) before counting the attempt;
then URL extension; HEAD content type (blank passes); fetch; decoded
format; duplicate hash; quality analysis; file write and size
verification; finally hash/counter/stats bookkeeping.  Every thrown error
reaches the catch block, which increments `stats.failed`. -/
def downloadSingleImage (st : DMState) (itemId : String) (att : Attempt) :
    DResult × DMState :=
  let currentCount := countFor st itemId
  if currentCount ≥ 5 then
    (⟨.capReached, false, att.savedBase⟩, recordFailed st)
  else
    let st := { st with stats := { st.stats with totalAttempted := st.stats.totalAttempted + 1 } }
    let urlExt := downloadUrlExt att.url
    if urlExt != "" && !([".jpg", ".jpeg", ".png"].contains urlExt) then
      (⟨.badExtension, false, att.savedBase⟩, recordFailed st)
    else if att.contentType != "" &&
        !(strStartsWith att.contentType "image/jpeg" || strStartsWith att.contentType "image/png") then
      (⟨.badContentType, false, att.savedBase⟩, recordFailed st)
    else if !att.fetchOk then
      (⟨.fetchFailed, false, att.savedBase⟩, recordFailed st)
    else
      match att.decodedFormat with
      | none => (⟨.badFormat, false, att.savedBase⟩, recordFailed st)
      | some format =>
        if !(["jpeg", "jpg", "png"].contains (toLower format)) then
          (⟨.badFormat, false, att.savedBase⟩, recordFailed st)
        else if st.downloadedHashes.contains att.downsample then
          let st := { st with stats := { st.stats with duplicatesSkipped := st.stats.duplicatesSkipped + 1 } }
          (⟨.duplicate, false, att.savedBase⟩, recordFailed st)
        else if !(analyzeImage att.analyzedSize att.analyzedDims).isValid then
          let st := { st with stats := { st.stats with qualityRejected := st.stats.qualityRejected + 1 } }
          (⟨.qualityRejected, false, att.savedBase⟩, recordFailed st)
        else if !att.statSizeMatches then
          -- the file was written before the verification and is not removed
          (⟨.sizeMismatch, true, att.savedBase⟩, recordFailed st)
        else
          let st :=
            { st with
                downloadedHashes := att.downsample :: st.downloadedHashes
                itemImageCounts := setCount st.itemImageCounts itemId (currentCount + 1)
                stats := { st.stats with successful := st.stats.successful + 1 } }
          (⟨.success, true, att.savedBase⟩, st)

/-- `DownloadManager.processDownloadsInChunks` (lines 495-517),
determinised: each URL gets exactly one `downloadSingleImage` invocation
(the source maps the chunk directly over `downloadSingleImage`; no retry
wrapper is applied on this path) and `Promise.allSettled` collects every
outcome. -/
def processDownloadsInChunks (st : DMState) (itemId : String) :
    List Attempt → List DResult × DMState
  | [] => ([], st)
  | att :: rest =>
    let step := downloadSingleImage st itemId att
    let restRun := processDownloadsInChunks step.2 itemId rest
    (step.1 :: restRun.1, restRun.2)

/-- `DownloadManager.resetStats` (lines 461-473): zeroes the statistics
and clears both the downloaded-hash set and the per-item counters. -/
def resetStats (_st : DMState) : DMState := initialDMState

/-- Combined session state: the download manager plus its
`ImageValidator` (constructor line 26). -/
structure SessionState where
  dm : DMState
  validator : ValidatorState
deriving DecidableEq

def initialSession : SessionState := ⟨initialDMState, emptyValidatorState⟩

/-- Per-item outcome of `downloadProductImages` (lines 85-149). -/
structure ItemDownloadResult where
  attempted : ℕ
  downloaded : ℕ
  failed : ℕ
  averageConfidence : ℚ
  needsNSFolder : Bool
  results : List DResult
deriving DecidableEq

/-- `DownloadManager.downloadProductImages` (downloadManager.js lines
67-158): resets the validator's duplicate-detection state (line 75;
`downloadedHashes` is not touched), truncates the URL list to
`maxImagesPerItem` (line 81), runs the chunked downloads, then validates
each fulfilled download against the product name/brand to accumulate
`downloaded`, `failed` and the average confidence (0 when nothing was
downloaded). -/
def downloadProductImages (sim : String → String → ℚ) (tokens : ProductTokens)
    (session : SessionState) (itemId productName : String) (brandName : Option String)
    (atts : List Attempt) : ItemDownloadResult × SessionState :=
  let validator := resetDuplicateDetection session.validator
  let run := processDownloadsInChunks session.dm itemId (atts.take maxImagesPerItem)
  let results := run.1
  let dm := run.2
  let fulfilled := results.filter (fun r => r.outcome == .success)
  let confidences :=
    fulfilled.map (fun r => calculateMatchConfidence sim tokens r.savedBase productName brandName)
  let downloaded := fulfilled.length
  let avgConfidence := averageConfidence confidences
  (⟨results.length, downloaded, results.length - downloaded, avgConfidence,
      decide (avgConfidence < 7/10), results⟩,
    ⟨dm, validator⟩)

/-! ## Concrete sample data used by witnesses and counterexamples -/

/-- A well-formed product-image URL that passes every URL gate. -/
def okUrl : Url :=
  ⟨true, "/images/item.jpg", "https://cdn.example.com/images/item.jpg"⟩

/-- A URL whose path carries the disallowed extension `.gif`. -/
def gifUrl : Url :=
  ⟨true, "/images/photo.gif", "https://cdn.example.com/images/photo.gif"⟩

/-- A download attempt that passes every gate of `downloadSingleImage`. -/
def goodAttempt : Attempt :=
  { url := okUrl, contentType := "image/jpeg", fetchOk := true,
    decodedFormat := some "jpeg", downsample := [1],
    analyzedSize := 20000, analyzedDims := some (800, 800),
    savedBase := "1001_1_ab12cd34", statSizeMatches := true }

/-- A manager state whose counter for item "A" already sits at the
configured per-item maximum. -/
def cappedState : DMState := ⟨[], [("A", 6)], zeroStats⟩

/-- 8×8 grayscale downsample: half black, half white. -/
def dsA : List ℕ := List.replicate 32 0 ++ List.replicate 32 255

/-- `dsA` with the first pixel flipped to white: a different byte sequence
whose average-hash fingerprint differs from `dsA`'s in exactly one of the
64 bit positions. -/
def dsB : List ℕ := 255 :: (List.replicate 31 0 ++ List.replicate 32 255)

/-- Attempt fetching the half-black/half-white image `dsA`. -/
def attA : Attempt := { goodAttempt with downsample := dsA, savedBase := "1001_1_aa11aa11" }

/-- Attempt fetching the near-identical image `dsB`. -/
def attB : Attempt := { goodAttempt with downsample := dsB, savedBase := "1001_2_bb22bb22" }

/-- A manager state that has already stored the downsample hash `[1]`. -/
def dupState : DMState := ⟨[[1]], [], zeroStats⟩

/-- A session whose manager already stored the downsample hash `[1]`. -/
def dupSession : SessionState := ⟨dupState, emptyValidatorState⟩

/-- A validator state holding the fingerprint of `dsA`. -/
def valStateA : ValidatorState := ⟨[], [averageHash dsA]⟩

/-- Product tokens for an unbranded three-word product name. -/
def sampleTokens : ProductTokens := extractProductTokens "Widget Gadget Device" none []

/-- `goodAttempt` hit by a transient network failure on its (single)
fetch. -/
def failAttempt : Attempt := { goodAttempt with fetchOk := false }

/-- `goodAttempt` whose post-write stat verification reports a different
size than the buffer. -/
def mismatchAttempt : Attempt := { goodAttempt with statSizeMatches := false }

/-- The manager state after `goodAttempt` succeeds from a fresh state. -/
def stateAfterGood : DMState := ⟨[[1]], [("A", 1)], ⟨1, 1, 0, 0, 0, 0⟩⟩

/-- The manager state after a byte-identical attempt for item "B" is then
rejected as a duplicate. -/
def stateAfterDup : DMState := ⟨[[1]], [("A", 1)], ⟨2, 1, 1, 0, 1, 0⟩⟩

/-! ## C1: terminal classification -/

/-- C1 (counterexample): the claim states that an item with kept images
and average confidence exactly 0 is classified NotSure; in the code the NS
rename filter requires `imageMatchingConfidence > 0`, so one kept image
with average confidence 0 keeps the base folder name, i.e. is classified
Found, not NotSure. -/
theorem C1_zero_confidence_is_found :
    folderClassification 1 0 = Classification.Found ∧
      Classification.Found ≠ Classification.NotSure := by
  constructor
  · simp [folderClassification, needsNIF, needsNS]
  · intro h; cases h

/-- C1 (amended): once an item's download attempts are exhausted, its
terminal classification is the pure function `folderClassification` of
(number of kept images, average match confidence): zero kept images yield
NoImageFound; a positive number of kept images with average confidence
strictly between 0 and matchThreshold (0.70) yields NotSure; otherwise —
including the boundary case of kept images with average confidence exactly
0 — the item is Found. -/
theorem C1_classification_table (downloaded : ℕ) (conf : ℚ) :
    (downloaded = 0 → folderClassification downloaded conf = Classification.NoImageFound) ∧
    (0 < downloaded → 0 < conf → conf < matchThreshold →
      folderClassification downloaded conf = Classification.NotSure) ∧
    (0 < downloaded → matchThreshold ≤ conf →
      folderClassification downloaded conf = Classification.Found) ∧
    (0 < downloaded → conf = 0 →
      folderClassification downloaded conf = Classification.Found) := by
  refine ⟨?_, ?_, ?_, ?_⟩
  · intro h
    subst h
    rfl
  · intro hd hc0 hct
    have hd' : downloaded ≠ 0 := Nat.pos_iff_ne_zero.mp hd
    have hct' : conf < 7/10 := by simpa [matchThreshold] using hct
    simp [folderClassification, needsNIF, needsNS, hd', hc0, hct']
  · intro hd hct
    have hd' : downloaded ≠ 0 := Nat.pos_iff_ne_zero.mp hd
    have : ¬ conf < 7/10 := not_lt.mpr (by simpa [matchThreshold] using hct)
    simp [folderClassification, needsNIF, needsNS, hd', this]
  · intro hd hc
    have hd' : downloaded ≠ 0 := Nat.pos_iff_ne_zero.mp hd
    subst hc
    simp [folderClassification, needsNIF, needsNS, hd']

/-- C1 amended, witnessed at concrete inputs. -/
theorem C1_classification_table_witness :
    folderClassification 0 (1/2) = Classification.NoImageFound ∧
    folderClassification 3 (1/2) = Classification.NotSure ∧
    folderClassification 3 (9/10) = Classification.Found ∧
    folderClassification 3 0 = Classification.Found :=
  ⟨(C1_classification_table 0 (1/2)).1 rfl,
   (C1_classification_table 3 (1/2)).2.1 (by norm_num) (by norm_num) (by norm_num [matchThreshold]),
   (C1_classification_table 3 (9/10)).2.2.1 (by norm_num) (by norm_num [matchThreshold]),
   (C1_classification_table 3 0).2.2.2 (by norm_num) rfl⟩

/-! ## C2: per-item image cap -/

theorem countFor_recordFailed (st : DMState) (itemId : String) :
    countFor (recordFailed st) itemId = countFor st itemId := rfl

theorem lookup_setCount_self (m : List (String × ℕ)) (k : String) (v : ℕ) :
    List.lookup k (setCount m k v) = some v := by
  induction m with
  | nil => simp [setCount, List.lookup]
  | cons p rest ih =>
    obtain ⟨k', v'⟩ := p
    by_cases h : k' = k
    · subst h
      simp [setCount, List.lookup]
    · have hb : (k' == k) = false := beq_eq_false_iff_ne.mpr h
      have hb' : (k == k') = false := beq_eq_false_iff_ne.mpr (Ne.symm h)
      simp [setCount, List.lookup, hb, hb', ih]

/-- Per-step behaviour of `downloadSingleImage` on the per-item counter:
a successful call increments it by exactly one (and only fires below the
hardcoded cap of 5); every other outcome leaves it unchanged. -/
theorem downloadSingleImage_count_spec (st : DMState) (itemId : String) (att : Attempt) :
    ((downloadSingleImage st itemId att).1.outcome = DownloadOutcome.success ∧
      countFor st itemId < 5 ∧
      countFor (downloadSingleImage st itemId att).2 itemId = countFor st itemId + 1) ∨
    ((downloadSingleImage st itemId att).1.outcome ≠ DownloadOutcome.success ∧
      countFor (downloadSingleImage st itemId att).2 itemId = countFor st itemId) := by
  cases hfmt : att.decodedFormat with
  | none =>
    simp only [downloadSingleImage, hfmt]
    split_ifs <;> right <;> exact ⟨by simp, rfl⟩
  | some format =>
    simp only [downloadSingleImage, hfmt]
    split_ifs with h1 h2 h3 h4 h5 h6 h7 h8
    · right; exact ⟨by simp, rfl⟩
    · right; exact ⟨by simp, rfl⟩
    · right; exact ⟨by simp, rfl⟩
    · right; exact ⟨by simp, rfl⟩
    · right; exact ⟨by simp, rfl⟩
    · right; exact ⟨by simp, rfl⟩
    · right; exact ⟨by simp, rfl⟩
    · right; exact ⟨by simp, rfl⟩
    · left
      refine ⟨rfl, by omega, ?_⟩
      simp [countFor, lookup_setCount_self]

/-- The per-item counter stays at most 5 along any attempt sequence. -/
theorem processDownloadsInChunks_count_le (atts : List Attempt) (st : DMState)
    (itemId : String) (h : countFor st itemId ≤ 5) :
    countFor (processDownloadsInChunks st itemId atts).2 itemId ≤ 5 := by
  induction atts generalizing st with
  | nil => simpa [processDownloadsInChunks] using h
  | cons a rest ih =>
    simp only [processDownloadsInChunks]
    apply ih
    rcases downloadSingleImage_count_spec st itemId a with ⟨_, hlt, heq⟩ | ⟨_, heq⟩
    · rw [heq]; omega
    · rw [heq]; exact h

/-- C2: for every item and every sequence of download attempts, the number
of images kept for that item never exceeds maxImagesPerItem; each call to
downloadSingleImage fails with the cap-reached error whenever the item's
counter has already reached that cap; and the counter is incremented
exactly once per kept image. -/
theorem C2_image_cap (st : DMState) (itemId : String) (att : Attempt) (atts : List Attempt) :
    (countFor (processDownloadsInChunks initialDMState itemId atts).2 itemId ≤ maxImagesPerItem) ∧
    (maxImagesPerItem ≤ countFor st itemId →
      (downloadSingleImage st itemId att).1.outcome = DownloadOutcome.capReached) ∧
    ((downloadSingleImage st itemId att).1.outcome = DownloadOutcome.success →
      countFor (downloadSingleImage st itemId att).2 itemId = countFor st itemId + 1) := by
  refine ⟨?_, ?_, ?_⟩
  · have h5 : countFor (processDownloadsInChunks initialDMState itemId atts).2 itemId ≤ 5 :=
      processDownloadsInChunks_count_le atts initialDMState itemId
        (by simp [countFor, initialDMState, List.lookup])
    simp only [maxImagesPerItem]
    omega
  · intro h
    have h5 : countFor st itemId ≥ 5 := by
      simp only [maxImagesPerItem] at h
      omega
    unfold downloadSingleImage
    rw [if_pos h5]
  · intro hs
    rcases downloadSingleImage_count_spec st itemId att with ⟨_, _, heq⟩ | ⟨hne, _⟩
    · exact heq
    · exact absurd hs hne

/-- C2, witnessed: a state whose counter for "A" is 6 rejects a further
download with the cap error, and a fresh state accepts a clean attempt and
moves the counter from 0 to 1. -/
theorem C2_image_cap_witness :
    maxImagesPerItem ≤ countFor cappedState "A" ∧
    (downloadSingleImage cappedState "A" goodAttempt).1.outcome = DownloadOutcome.capReached ∧
    (downloadSingleImage initialDMState "A" goodAttempt).1.outcome = DownloadOutcome.success ∧
    countFor (downloadSingleImage initialDMState "A" goodAttempt).2 "A" =
      countFor initialDMState "A" + 1 := by
  have h1 : maxImagesPerItem ≤ countFor cappedState "A" := by
    simp [cappedState, countFor, maxImagesPerItem, List.lookup]
  have hsucc : (downloadSingleImage initialDMState "A" goodAttempt).1.outcome =
      DownloadOutcome.success := by
    norm_num [downloadSingleImage, initialDMState, countFor, goodAttempt, downloadUrlExt, okUrl,
      extname, extAfterLastDot, toLower, strStartsWith, analyzeImage, isSquareImage,
      meetsSizeRequirements, initialAnalysis, calculateStrictQualityScore, recordFailed, zeroStats]
    decide
  exact ⟨h1, (C2_image_cap cappedState "A" goodAttempt []).2.1 h1, hsucc,
    (C2_image_cap initialDMState "A" goodAttempt []).2.2 hsucc⟩

/-! ## C3: near-duplicate fingerprints -/

/-- `averageHash` restated over naturals (`pixel > mean` as
`sum < length * pixel`). -/
theorem averageHash_eq (pixels : List ℕ) :
    averageHash pixels =
      pixels.map (fun pixel => decide (pixels.sum < pixels.length * pixel)) := by
  unfold averageHash
  apply List.map_congr_left
  intro pixel _
  rw [decide_eq_decide, gt_iff_lt]
  exact_mod_cast Iff.rfl

/-- C3 (counterexample): two fetched images (`dsA`, `dsB`) whose 64-bit
perceptual fingerprints differ in exactly one bit position (well within
10% of 64) are nevertheless both kept by the download path: the duplicate
gate of `downloadSingleImage` compares the MD5 of the 8×8 downsample for
exact equality, so near-identical but unequal downsamples never collide
and two images are kept instead of one. -/
theorem C3_near_duplicate_kept :
    calculateHammingDistance (averageHash dsA) (averageHash dsB) = 1 ∧
    averageHash dsA ≠ averageHash dsB ∧
    (processDownloadsInChunks initialDMState "A" [attA, attB]).1.map (fun r => r.outcome) =
      [DownloadOutcome.success, DownloadOutcome.success] ∧
    countFor (processDownloadsInChunks initialDMState "A" [attA, attB]).2 "A" = 2 := by
  refine ⟨?_, ?_, ?_, ?_⟩
  · rw [averageHash_eq, averageHash_eq]
    decide
  · rw [averageHash_eq, averageHash_eq]
    decide
  · norm_num [processDownloadsInChunks, downloadSingleImage, initialDMState, countFor,
      attA, attB, goodAttempt, downloadUrlExt, okUrl, extname, extAfterLastDot, toLower,
      strStartsWith, analyzeImage, isSquareImage, meetsSizeRequirements, initialAnalysis,
      calculateStrictQualityScore, recordFailed, zeroStats, dsA, dsB]
    decide
  · norm_num [processDownloadsInChunks, downloadSingleImage, initialDMState, countFor,
      attA, attB, goodAttempt, downloadUrlExt, okUrl, extname, extAfterLastDot, toLower,
      strStartsWith, analyzeImage, isSquareImage, meetsSizeRequirements, initialAnalysis,
      calculateStrictQualityScore, recordFailed, zeroStats, dsA, dsB]
    decide

/-- C3 (amended): in the download path a second image is rejected as a
duplicate only when its 8×8 grayscale downsample is byte-identical to an
accepted one (MD5 equality); the Hamming-distance rule — two 64-bit
fingerprints within distance 6 of 64 (similarity ≥ 0.90) are duplicates —
is implemented by `ImageValidator.isDuplicate`, which the download path
never invokes. -/
theorem C3_duplicate_gates (st : DMState) (itemId : String) (att : Attempt)
    (vst : ValidatorState) (hash existing : List Bool) :
    ((downloadSingleImage st itemId att).1.outcome = DownloadOutcome.duplicate →
      att.downsample ∈ st.downloadedHashes) ∧
    (existing ∈ vst.similarImages → calculateHammingDistance hash existing ≤ 6 →
      (isDuplicate vst hash).1 = true) := by
  constructor
  · cases hfmt : att.decodedFormat with
    | none =>
      simp only [downloadSingleImage, hfmt]
      split_ifs <;> intro h <;> simp at h
    | some format =>
      simp only [downloadSingleImage, hfmt]
      split_ifs with h1 h2 h3 h4 h5 h6 h7 h8 <;> intro h <;> try simp at h
      · exact (List.elem_iff).mp h6
  · intro hmem hd
    unfold isDuplicate
    split_ifs with h1 h2
    · rfl
    · rfl
    · exfalso
      apply h2
      refine List.any_eq_true.mpr ⟨existing, hmem, decide_eq_true ?_⟩
      have hc : (calculateHammingDistance hash existing : ℚ) ≤ 6 := by exact_mod_cast hd
      rw [duplicateThreshold]
      rw [ge_iff_le, le_sub_iff_add_le]
      have : (calculateHammingDistance hash existing : ℚ) / 64 ≤ 6 / 64 := by linarith
      linarith

/-- C3 amended, witnessed: a repeated identical downsample is rejected as
duplicate (and its hash was indeed present), and `isDuplicate` flags a
fingerprint at Hamming distance 1 from a stored one. -/
theorem C3_duplicate_gates_witness :
    goodAttempt.downsample ∈ dupState.downloadedHashes ∧
    (isDuplicate valStateA (averageHash dsB)).1 = true := by
  have hmem : averageHash dsA ∈ valStateA.similarImages := by
    simp [valStateA]
  have hdist : calculateHammingDistance (averageHash dsB) (averageHash dsA) ≤ 6 := by
    rw [averageHash_eq, averageHash_eq]
    decide
  have hdup : (downloadSingleImage dupState "A" goodAttempt).1.outcome =
      DownloadOutcome.duplicate := by
    norm_num [downloadSingleImage, dupState, countFor, goodAttempt, downloadUrlExt, okUrl,
      extname, extAfterLastDot, toLower, strStartsWith, recordFailed, zeroStats]
    decide
  exact ⟨(C3_duplicate_gates dupState "A" goodAttempt valStateA (averageHash dsB)
      (averageHash dsA)).1 hdup,
    (C3_duplicate_gates dupState "A" goodAttempt valStateA (averageHash dsB)
      (averageHash dsA)).2 hmem hdist⟩

/-! ## C4: scope of the duplicate-detection state -/

/-- Evaluation: a clean attempt from a fresh manager state succeeds and
stores its downsample hash. -/
theorem downloadSingleImage_good_eval :
    downloadSingleImage initialDMState "A" goodAttempt =
      (⟨DownloadOutcome.success, true, "1001_1_ab12cd34"⟩, stateAfterGood) := by
  norm_num [downloadSingleImage, initialDMState, countFor, goodAttempt, downloadUrlExt, okUrl,
    extname, extAfterLastDot, toLower, strStartsWith, analyzeImage, isSquareImage,
    meetsSizeRequirements, initialAnalysis, calculateStrictQualityScore, recordFailed,
    zeroStats, stateAfterGood, setCount]
  decide

/-- Evaluation: the byte-identical attempt for item "B" is then rejected
as a duplicate of item "A"'s image. -/
theorem downloadSingleImage_dup_eval :
    downloadSingleImage stateAfterGood "B" goodAttempt =
      (⟨DownloadOutcome.duplicate, false, "1001_1_ab12cd34"⟩, stateAfterDup) := by
  norm_num [downloadSingleImage, stateAfterGood, countFor, goodAttempt, downloadUrlExt, okUrl,
    extname, extAfterLastDot, toLower, strStartsWith, recordFailed, stateAfterDup, List.lookup]
  decide

/-- `downloadSingleImage` never removes a stored downsample hash. -/
theorem downloadSingleImage_hashes_mono (st : DMState) (itemId : String) (att : Attempt) :
    st.downloadedHashes ⊆ (downloadSingleImage st itemId att).2.downloadedHashes := by
  cases hfmt : att.decodedFormat <;>
    simp only [downloadSingleImage, hfmt] <;>
    split_ifs <;>
    first
      | exact fun a ha => ha
      | exact fun a ha => List.mem_cons_of_mem _ ha

/-- The stored downsample hashes only grow along an attempt sequence. -/
theorem processDownloadsInChunks_hashes_mono (atts : List Attempt) (st : DMState)
    (itemId : String) :
    st.downloadedHashes ⊆ (processDownloadsInChunks st itemId atts).2.downloadedHashes := by
  induction atts generalizing st with
  | nil => exact fun a ha => ha
  | cons a rest ih =>
    simp only [processDownloadsInChunks]
    exact fun x hx => ih _ (downloadSingleImage_hashes_mono st itemId a hx)

/-- C4 (counterexample): the fingerprint set consulted for duplicate
rejection is NOT item-scoped.  After item "A" accepts an image,
processing item "B" with a byte-identical image rejects it as a
duplicate, so the kept hash set of a previous item does leak into the
next item's duplicate decisions. -/
theorem C4_cross_item_duplicate :
    ((downloadProductImages (fun _ _ => 1/2) sampleTokens initialSession
        "A" "Widget Gadget Device" none [goodAttempt]).1.downloaded = 1) ∧
    ((downloadProductImages (fun _ _ => 1/2) sampleTokens
        (downloadProductImages (fun _ _ => 1/2) sampleTokens initialSession
          "A" "Widget Gadget Device" none [goodAttempt]).2
        "B" "Widget Gadget Device" none [goodAttempt]).1.results.map (fun r => r.outcome) =
      [DownloadOutcome.duplicate]) ∧
    ((downloadProductImages (fun _ _ => 1/2) sampleTokens
        (downloadProductImages (fun _ _ => 1/2) sampleTokens initialSession
          "A" "Widget Gadget Device" none [goodAttempt]).2
        "B" "Widget Gadget Device" none [goodAttempt]).1.downloaded = 0) := by
  have hsess : (downloadProductImages (fun _ _ => 1/2) sampleTokens initialSession
      "A" "Widget Gadget Device" none [goodAttempt]).2 =
      ⟨stateAfterGood, emptyValidatorState⟩ := by
    simp only [downloadProductImages]
    norm_num [processDownloadsInChunks, maxImagesPerItem, downloadSingleImage_good_eval,
      initialSession, resetDuplicateDetection]
  refine ⟨?_, ?_, ?_⟩
  · simp only [downloadProductImages]
    norm_num [processDownloadsInChunks, maxImagesPerItem, downloadSingleImage_good_eval,
      initialSession]
  · rw [hsess]
    simp only [downloadProductImages]
    norm_num [processDownloadsInChunks, maxImagesPerItem, downloadSingleImage_dup_eval]
  · rw [hsess]
    simp only [downloadProductImages]
    norm_num [processDownloadsInChunks, maxImagesPerItem, downloadSingleImage_dup_eval]
    decide

/-- C4 (amended): at the start of each `downloadProductImages` call only
the ImageValidator's fingerprint sets are cleared; the MD5 hash set that
`downloadSingleImage` actually consults (`downloadedHashes`) persists
across items for the whole session and is emptied only by `resetStats`,
so an image whose downsample matches one accepted for a previous item is
rejected as a duplicate. -/
theorem C4_dedup_state_scope (sim : String → String → ℚ) (tokens : ProductTokens)
    (session : SessionState) (itemId productName : String) (brandName : Option String)
    (atts : List Attempt) (st : DMState) :
    ((downloadProductImages sim tokens session itemId productName brandName atts).2.validator =
      emptyValidatorState) ∧
    (session.dm.downloadedHashes ⊆
      (downloadProductImages sim tokens session itemId productName brandName atts).2.dm.downloadedHashes) ∧
    ((resetStats st).downloadedHashes = []) := by
  refine ⟨rfl, ?_, rfl⟩
  exact processDownloadsInChunks_hashes_mono _ _ _

/-- C4 amended, witnessed: a hash stored by the session survives a whole
`downloadProductImages` call for a different item. -/
theorem C4_dedup_state_scope_witness :
    ((downloadProductImages (fun _ _ => 1/2) sampleTokens dupSession
        "B" "Widget Gadget Device" none []).2.validator = emptyValidatorState) ∧
    ([1] ∈ (downloadProductImages (fun _ _ => 1/2) sampleTokens dupSession
        "B" "Widget Gadget Device" none []).2.dm.downloadedHashes) ∧
    ((resetStats dupState).downloadedHashes = []) := by
  refine ⟨(C4_dedup_state_scope (fun _ _ => 1/2) sampleTokens dupSession
      "B" "Widget Gadget Device" none [] dupState).1, ?_,
    (C4_dedup_state_scope (fun _ _ => 1/2) sampleTokens dupSession
      "B" "Widget Gadget Device" none [] dupState).2.2⟩
  exact (C4_dedup_state_scope (fun _ _ => 1/2) sampleTokens dupSession
      "B" "Widget Gadget Device" none [] dupState).2.1 (by simp [dupSession, dupState])

/-! ## C5: retry with exponential backoff -/

/-- `Helpers.retry`'s loop, characterised: when the `k`-th attempt inside
the window is the first to succeed, the loop returns success after
sleeping `backoffDelay` of each failed attempt, uncapped. -/
theorem retryAux_first_success (f : ℕ → Bool) :
    ∀ (fuel a k : ℕ), a ≤ k → k < a + fuel → f k = true →
      (∀ j, a ≤ j → j < k → f j = false) →
      retryAux f a fuel = (true, (List.range (k - a)).map (fun i => backoffDelay (a + i))) := by
  intro fuel
  induction fuel with
  | zero => intro a k h1 h2 _ _; omega
  | succ fuel ih =>
    intro a k h1 h2 hk hprev
    simp only [retryAux]
    by_cases hak : a = k
    · subst hak
      simp [hk]
    · have hfa : f a = false := hprev a le_rfl (by omega)
      have hf0 : fuel ≠ 0 := by omega
      rw [hfa]
      simp only [Bool.false_eq_true, if_false, hf0, if_neg hf0]
      rw [ih (a + 1) k (by omega) (by omega) hk (fun j hj1 hj2 => hprev j (by omega) hj2)]
      have hsub : k - a = (k - a - 1) + 1 := by omega
      rw [hsub, List.range_succ_eq_map]
      simp only [List.map_cons, List.map_map, Function.comp_def, Nat.add_zero]
      congr 1
      have hsub' : k - (a + 1) = k - a - 1 := by omega
      rw [hsub']
      congr 1
      apply List.map_congr_left
      intro i _
      congr 1
      omega

/-- C5 (counterexample): a download whose first fetch fails transiently
but whose second attempt would succeed is counted as failed by the
pipeline: `Helpers.retry` (budget `retryAttempts = 2`) succeeds on such an
attempt oracle, yet `processDownloadsInChunks` — the path
`downloadProductImages` actually uses — invokes `downloadSingleImage`
exactly once per URL with no retry wrapper, recording the download as a
failure and no success. -/
theorem C5_transient_failure_not_retried :
    (retryModel (fun t => t == 2) retryAttempts).1 = true ∧
    (processDownloadsInChunks initialDMState "A" [failAttempt]).1.map (fun r => r.outcome) =
      [DownloadOutcome.fetchFailed] ∧
    (processDownloadsInChunks initialDMState "A" [failAttempt]).2.stats.failed = 1 ∧
    (processDownloadsInChunks initialDMState "A" [failAttempt]).2.stats.successful = 0 := by
  refine ⟨rfl, ?_, ?_, ?_⟩ <;>
    · norm_num [processDownloadsInChunks, downloadSingleImage, initialDMState, countFor,
        failAttempt, goodAttempt, downloadUrlExt, okUrl, extname, extAfterLastDot, toLower,
        strStartsWith, recordFailed, zeroStats]
      decide

/-- C5 (amended): `Helpers.retry` retries up to `retryAttempts` total
attempts with backoff delay `1000 * backoffMultiplier^(attempt-1)` (no
maximum-delay cap) and reports success when any attempt within the budget
succeeds; the chunked download path used by `downloadProductImages`,
however, performs no retry: a call whose fetch fails does not succeed and
its failure is recorded in the statistics. -/
theorem C5_retry_and_chunked_path (f : ℕ → Bool) (k : ℕ) (st : DMState)
    (itemId : String) (att : Attempt) :
    (1 ≤ k → k ≤ retryAttempts → f k = true → (∀ j, 1 ≤ j → j < k → f j = false) →
      retryModel f retryAttempts =
        (true, (List.range (k - 1)).map (fun i => backoffDelay (1 + i)))) ∧
    (att.fetchOk = false →
      (downloadSingleImage st itemId att).1.outcome ≠ DownloadOutcome.success ∧
      (downloadSingleImage st itemId att).2.stats.failed = st.stats.failed + 1) := by
  constructor
  · intro h1 h2 hk hprev
    exact retryAux_first_success f retryAttempts 1 k h1 (by omega) hk hprev
  · intro hfetch
    simp only [downloadSingleImage, hfetch, Bool.not_false, if_true]
    split_ifs <;> exact ⟨by simp, rfl⟩

/-- C5 amended, witnessed: the oracle failing once then succeeding makes
`Helpers.retry` succeed after a single 1000ms backoff, while the chunked
path marks the transiently failing attempt as failed. -/
theorem C5_retry_and_chunked_path_witness :
    retryModel (fun t => t == 2) retryAttempts = (true, [backoffDelay 1]) ∧
    (downloadSingleImage initialDMState "A" failAttempt).1.outcome ≠ DownloadOutcome.success ∧
    (downloadSingleImage initialDMState "A" failAttempt).2.stats.failed =
      initialDMState.stats.failed + 1 := by
  have h1 := (C5_retry_and_chunked_path (fun t => t == 2) 2 initialDMState "A" failAttempt).1
    (by norm_num) (by norm_num [retryAttempts]) rfl
    (fun j hj1 hj2 => by
      have hj : j = 1 := by omega
      subst hj
      rfl)
  have h2 := (C5_retry_and_chunked_path (fun t => t == 2) 2 initialDMState "A" failAttempt).2
    rfl
  refine ⟨?_, h2.1, h2.2⟩
  simpa using h1

/-! ## C7: no file remains written on failure -/

/-- C7 (counterexample): the post-write verification failure ("File size
mismatch after writing") is a non-success outcome that leaves the written
image file in the output directory: the catch block records the failure
but deletes nothing. -/
theorem C7_size_mismatch_leaves_file :
    (downloadSingleImage initialDMState "A" mismatchAttempt).1.outcome =
      DownloadOutcome.sizeMismatch ∧
    (downloadSingleImage initialDMState "A" mismatchAttempt).1.outcome ≠
      DownloadOutcome.success ∧
    (downloadSingleImage initialDMState "A" mismatchAttempt).1.fileWritten = true ∧
    (downloadSingleImage initialDMState "A" mismatchAttempt).2.stats.failed = 1 := by
  refine ⟨?_, ?_, ?_, ?_⟩ <;>
    · norm_num [downloadSingleImage, initialDMState, countFor, mismatchAttempt, goodAttempt,
        downloadUrlExt, okUrl, extname, extAfterLastDot, toLower, strStartsWith, analyzeImage,
        isSquareImage, meetsSizeRequirements, initialAnalysis, calculateStrictQualityScore,
        recordFailed, zeroStats]
      decide

/-- C7 (amended): every non-success call to `downloadSingleImage` records
the failure in the statistics, and every failure EXCEPT the post-write
size-verification failure leaves no image file written for that attempt;
on the size-mismatch path the already-written file remains on disk. -/
theorem C7_failure_bookkeeping (st : DMState) (itemId : String) (att : Attempt) :
    ((downloadSingleImage st itemId att).1.outcome ≠ DownloadOutcome.success →
      (downloadSingleImage st itemId att).2.stats.failed = st.stats.failed + 1) ∧
    ((downloadSingleImage st itemId att).1.outcome ≠ DownloadOutcome.success →
      (downloadSingleImage st itemId att).1.outcome ≠ DownloadOutcome.sizeMismatch →
      (downloadSingleImage st itemId att).1.fileWritten = false) := by
  cases hfmt : att.decodedFormat with
  | none =>
    simp only [downloadSingleImage, hfmt]
    split_ifs <;> exact ⟨fun _ => rfl, fun _ _ => rfl⟩
  | some format =>
    simp only [downloadSingleImage, hfmt]
    split_ifs <;>
      first
        | exact ⟨fun h => absurd rfl h, fun h _ => absurd rfl h⟩
        | exact ⟨fun _ => rfl, fun _ h2 => absurd rfl h2⟩
        | exact ⟨fun _ => rfl, fun _ _ => rfl⟩

/-- C7 amended, witnessed on a pre-write failure: the transiently failing
fetch is recorded as failed and leaves no file. -/
theorem C7_failure_bookkeeping_witness :
    (downloadSingleImage initialDMState "A" failAttempt).2.stats.failed =
      initialDMState.stats.failed + 1 ∧
    (downloadSingleImage initialDMState "A" failAttempt).1.fileWritten = false := by
  have hne : (downloadSingleImage initialDMState "A" failAttempt).1.outcome ≠
      DownloadOutcome.success := by
    norm_num [downloadSingleImage, initialDMState, countFor, failAttempt, goodAttempt,
      downloadUrlExt, okUrl, extname, extAfterLastDot, toLower, strStartsWith, recordFailed,
      zeroStats]
    decide
  have hnm : (downloadSingleImage initialDMState "A" failAttempt).1.outcome ≠
      DownloadOutcome.sizeMismatch := by
    norm_num [downloadSingleImage, initialDMState, countFor, failAttempt, goodAttempt,
      downloadUrlExt, okUrl, extname, extAfterLastDot, toLower, strStartsWith, recordFailed,
      zeroStats]
    decide
  exact ⟨(C7_failure_bookkeeping initialDMState "A" failAttempt).1 hne,
    (C7_failure_bookkeeping initialDMState "A" failAttempt).2 hne hnm⟩

/-! ## C6: source-trust confidence for opaque filenames -/

/-- C6: for opaque (cryptic) filenames `calculateMatchConfidence` routes
to the source-trust estimator, whose value is 0.95 for branded items
(raised to 1.0, the cap, by the three-token specificity bonus) and exactly
0.75 for every unbranded item; an unbranded item with two such images
averages 0.75 ≥ 0.70 and is classified Found. -/
theorem C6_ecommerce_confidence (sim : String → String → ℚ) (tokens : ProductTokens)
    (filename productName : String) (brandName : Option String) :
    (isBranded brandName = false → calculateEcommerceMatchConfidence productName brandName = 3/4) ∧
    (isBranded brandName = true → specificTokenCount productName < 3 →
      calculateEcommerceMatchConfidence productName brandName = 19/20) ∧
    (isBranded brandName = true → 3 ≤ specificTokenCount productName →
      calculateEcommerceMatchConfidence productName brandName = 1) ∧
    (isCrypticFilename filename = true →
      calculateMatchConfidence sim tokens filename productName brandName =
        min (calculateEcommerceMatchConfidence productName brandName) 1) ∧
    (averageConfidence [3/4, 3/4] = 3/4 ∧
      folderClassification 2 (averageConfidence [3/4, 3/4]) = Classification.Found) := by
  refine ⟨?_, ?_, ?_, ?_, ?_, ?_⟩
  · intro h
    simp [calculateEcommerceMatchConfidence, h]
  · intro h hlt
    have h3 : ¬ specificTokenCount productName ≥ 3 := by omega
    simp [calculateEcommerceMatchConfidence, h, h3]
  · intro h hge
    simp only [calculateEcommerceMatchConfidence, h, if_true, Bool.not_true, if_neg,
      Bool.false_eq_true, if_false, ge_iff_le, hge, if_pos]
    norm_num
  · intro h
    simp [calculateMatchConfidence, h]
  · norm_num [averageConfidence]
  · have havg : averageConfidence [3/4, 3/4] = 3/4 := by norm_num [averageConfidence]
    rw [havg]
    norm_num [folderClassification, needsNIF, needsNS]

/-- C6, witnessed: a cryptic filename with an unbranded three-token
product name gets confidence exactly 0.75, and the branded cases hit 0.95
and the 1.0 cap. -/
theorem C6_ecommerce_confidence_witness :
    calculateEcommerceMatchConfidence "Widget Gadget Device" none = 3/4 ∧
    calculateEcommerceMatchConfidence "Tip" (some "HARRIS") = 19/20 ∧
    calculateEcommerceMatchConfidence "Widget Gadget Device" (some "HARRIS") = 1 ∧
    calculateMatchConfidence (fun _ _ => 1/2) sampleTokens "a1b2c3d4e5"
      "Widget Gadget Device" none =
      min (calculateEcommerceMatchConfidence "Widget Gadget Device" none) 1 := by
  refine ⟨(C6_ecommerce_confidence (fun _ _ => 1/2) sampleTokens "a1b2c3d4e5"
      "Widget Gadget Device" none).1 rfl,
    (C6_ecommerce_confidence (fun _ _ => 1/2) sampleTokens "a1b2c3d4e5"
      "Tip" (some "HARRIS")).2.1 rfl ?_,
    (C6_ecommerce_confidence (fun _ _ => 1/2) sampleTokens "a1b2c3d4e5"
      "Widget Gadget Device" (some "HARRIS")).2.2.1 rfl ?_,
    (C6_ecommerce_confidence (fun _ _ => 1/2) sampleTokens "a1b2c3d4e5"
      "Widget Gadget Device" none).2.2.2.1 ?_⟩
  · decide
  · decide
  · decide

/-! ## C8: score bounds -/

theorem calculateBrandMatch_bounds (tokens : ProductTokens) (filename : String)
    (brandName : Option String) :
    0 ≤ calculateBrandMatch tokens filename brandName ∧
      calculateBrandMatch tokens filename brandName ≤ 1 := by
  cases brandName with
  | none => norm_num [calculateBrandMatch]
  | some b =>
    simp only [calculateBrandMatch]
    split_ifs with h1 h2 h3 h4 h5
    · norm_num
    · norm_num
    · norm_num
    · norm_num
    · have hlen : ((tokens.brands.filter
          (fun brandToken => strContains (toLower filename) brandToken)).length : ℚ) ≤
          (tokens.brands.length : ℚ) := by
        exact_mod_cast List.length_filter_le _ _
      have hpos : (0 : ℚ) < tokens.brands.length := by exact_mod_cast h5
      constructor
      · positivity
      · rw [div_le_one hpos]
        exact hlen
    · norm_num

theorem calculateAttributeMatch_bounds (tokens : ProductTokens) (filename : String) :
    0 ≤ calculateAttributeMatch tokens filename ∧ calculateAttributeMatch tokens filename ≤ 1 := by
  simp only [calculateAttributeMatch]
  split_ifs with h
  · have h1 := List.length_filter_le
      (fun size => strContains (toLower filename) (toLower size)) tokens.sizes
    have h2 := List.length_filter_le
      (fun color => strContains (toLower filename) color) tokens.colors
    have h3 := List.length_filter_le
      (fun material => strContains (toLower filename) material) tokens.materials
    have hpos : (0 : ℚ) <
        ((tokens.sizes.length + tokens.colors.length + tokens.materials.length : ℕ) : ℚ) := by
      exact_mod_cast h
    constructor
    · positivity
    · rw [div_le_one hpos]
      push_cast
      have := Nat.add_le_add (Nat.add_le_add h1 h2) h3
      exact_mod_cast this
  · norm_num

theorem calculateSizeMatch_bounds (tokens : ProductTokens) (filename : String) :
    0 ≤ calculateSizeMatch tokens filename ∧ calculateSizeMatch tokens filename ≤ 1 := by
  simp only [calculateSizeMatch]
  split_ifs with h
  · norm_num
  · have hpos : (0 : ℚ) < tokens.sizes.length := by
      exact_mod_cast Nat.pos_of_ne_zero h
    have hlen : ((tokens.sizes.filter
        (fun size => strContains (toLower filename) (toLower size))).length : ℚ) ≤
        (tokens.sizes.length : ℚ) := by
      exact_mod_cast List.length_filter_le _ _
    constructor
    · positivity
    · rw [div_le_one hpos]
      exact hlen

theorem calculateEcommerceMatchConfidence_bounds (productName : String)
    (brandName : Option String) :
    0 ≤ calculateEcommerceMatchConfidence productName brandName ∧
      calculateEcommerceMatchConfidence productName brandName ≤ 1 := by
  unfold calculateEcommerceMatchConfidence
  split_ifs <;> constructor <;>
    first
      | norm_num
      | exact le_min (by norm_num) (by norm_num)
      | exact min_le_right _ _

theorem calculateStrictQualityScore_bounds (analysis : QualityAnalysis)
    (hbg : 0 ≤ analysis.backgroundConfidence) (hsh : 0 ≤ analysis.sharpness) :
    0 ≤ calculateStrictQualityScore analysis ∧ calculateStrictQualityScore analysis ≤ 1 := by
  unfold calculateStrictQualityScore
  constructor
  · split_ifs <;>
      · apply le_min (by norm_num)
        positivity
  · split_ifs <;> exact min_le_left _ _

set_option maxHeartbeats 1000000 in
/-- C8: for every input — every filename, product name, optional brand
and token bundle on the matching side; every byte length and decoded
dimensions on the quality side — the computed match confidence and the
computed quality score lie in [0,1], error paths included, provided the
external string-similarity kernel itself returns values in [0,1]. -/
theorem C8_score_bounds (sim : String → String → ℚ)
    (hsim : ∀ a b, 0 ≤ sim a b ∧ sim a b ≤ 1) :
    (∀ (tokens : ProductTokens) (filename productName : String) (brandName : Option String),
      0 ≤ calculateMatchConfidence sim tokens filename productName brandName ∧
        calculateMatchConfidence sim tokens filename productName brandName ≤ 1) ∧
    (∀ (fileSize : ℕ) (dims : Option (ℕ × ℕ)),
      0 ≤ (analyzeImage fileSize dims).score ∧ (analyzeImage fileSize dims).score ≤ 1) := by
  constructor
  · intro tokens filename productName brandName
    have hb := calculateBrandMatch_bounds tokens filename brandName
    have hn := hsim (cleanForSimilarity filename) (cleanForSimilarity productName)
    have ha := calculateAttributeMatch_bounds tokens filename
    have hs := calculateSizeMatch_bounds tokens filename
    have he := calculateEcommerceMatchConfidence_bounds productName brandName
    simp only [calculateMatchConfidence, calculateTextSimilarity]
    split_ifs with h1 h2 h3
    · exact ⟨le_min he.1 (by norm_num), min_le_right _ _⟩
    · exact ⟨le_min (by linarith [hn.1, ha.1, hs.1]) (by norm_num), min_le_right _ _⟩
    · exact ⟨le_min (le_min (by linarith [hb.1, hn.1, ha.1, hs.1]) (by norm_num))
        (by norm_num), min_le_right _ _⟩
    · exact ⟨le_min (by linarith [hb.1, hn.1, ha.1, hs.1]) (by norm_num), min_le_right _ _⟩
  · intro fileSize dims
    by_cases h1 : fileSize < 10000
    · simp only [analyzeImage, if_pos h1]
      norm_num [initialAnalysis]
    · by_cases h2 : fileSize > 5000000
      · simp only [analyzeImage, if_neg h1, if_pos h2]
        norm_num [initialAnalysis]
      · cases dims with
        | none =>
          simp only [analyzeImage, if_neg h1, if_neg h2]
          norm_num [initialAnalysis]
        | some wh =>
          obtain ⟨w, h⟩ := wh
          simp only [analyzeImage, if_neg h1, if_neg h2]
          exact calculateStrictQualityScore_bounds _
            (show (0 : ℚ) ≤ 4/5 by norm_num) (show (0 : ℚ) ≤ 4/5 by norm_num)

/-- C8, witnessed with a concrete similarity kernel and inputs. -/
theorem C8_score_bounds_witness :
    (0 ≤ calculateMatchConfidence (fun _ _ => 1/2) sampleTokens "harris-tip-photo"
        "Widget Gadget Device" none ∧
      calculateMatchConfidence (fun _ _ => 1/2) sampleTokens "harris-tip-photo"
        "Widget Gadget Device" none ≤ 1) ∧
    (0 ≤ (analyzeImage 20000 (some (800, 800))).score ∧
      (analyzeImage 20000 (some (800, 800))).score ≤ 1) :=
  ⟨(C8_score_bounds (fun _ _ => 1/2) (fun _ _ => ⟨by norm_num, by norm_num⟩)).1
      sampleTokens "harris-tip-photo" "Widget Gadget Device" none,
    (C8_score_bounds (fun _ _ => 1/2) (fun _ _ => ⟨by norm_num, by norm_num⟩)).2
      20000 (some (800, 800))⟩

/-! ## C9: the quality gate is size and geometry only -/

/-- C9: `analyzeImage`'s validity verdict is exactly the conjunction of
the byte-size bounds (10KB-5MB) and the geometry checks (near-square
aspect ratio and both dimensions in [600, 1200]); the background,
watermark and sharpness heuristics are hardcoded to pass (plain
background at confidence 0.8, no watermark, sharpness 0.8), so any
decodable buffer satisfying size and geometry is valid regardless of
pixel content and of the configured thresholds (which the function never
reads). -/
theorem C9_quality_gate (fileSize w h : ℕ) :
    ((analyzeImage fileSize (some (w, h))).isValid =
      (decide (10000 ≤ fileSize) && decide (fileSize ≤ 5000000) &&
        isSquareImage w h && meetsSizeRequirements w h)) ∧
    (10000 ≤ fileSize → fileSize ≤ 5000000 →
      (analyzeImage fileSize (some (w, h))).hasPlainBackground = true ∧
      (analyzeImage fileSize (some (w, h))).backgroundConfidence = 4/5 ∧
      (analyzeImage fileSize (some (w, h))).hasWatermark = false ∧
      (analyzeImage fileSize (some (w, h))).sharpness = 4/5) := by
  constructor
  · by_cases h1 : fileSize < 10000
    · have hd : decide (10000 ≤ fileSize) = false := decide_eq_false (by omega)
      simp [analyzeImage, if_pos h1, initialAnalysis, hd]
    · by_cases h2 : fileSize > 5000000
      · have hd : decide (fileSize ≤ 5000000) = false := decide_eq_false (by omega)
        simp [analyzeImage, if_neg h1, if_pos h2, initialAnalysis, hd]
      · have hd1 : decide (10000 ≤ fileSize) = true := decide_eq_true (by omega)
        have hd2 : decide (fileSize ≤ 5000000) = true := decide_eq_true (by omega)
        have hblur : (decide ((4 : ℚ)/5 < 3/10)) = false := decide_eq_false (by norm_num)
        simp only [analyzeImage, if_neg h1, if_neg h2, hblur]
        rw [hd1, hd2]
        cases hsq : isSquareImage w h <;> cases hms : meetsSizeRequirements w h <;>
          simp [hsq, hms]
  · intro ha hb
    have h1 : ¬ fileSize < 10000 := by omega
    have h2 : ¬ fileSize > 5000000 := by omega
    simp [analyzeImage, if_neg h1, if_neg h2]

/-- C9, witnessed: a 20KB decodable 800×800 buffer is valid, with the
hardcoded heuristic values. -/
theorem C9_quality_gate_witness :
    (analyzeImage 20000 (some (800, 800))).isValid = true ∧
    (analyzeImage 20000 (some (800, 800))).hasPlainBackground = true ∧
    (analyzeImage 20000 (some (800, 800))).backgroundConfidence = 4/5 ∧
    (analyzeImage 20000 (some (800, 800))).hasWatermark = false ∧
    (analyzeImage 20000 (some (800, 800))).sharpness = 4/5 := by
  have h2 := (C9_quality_gate 20000 800 800).2 (by norm_num) (by norm_num)
  refine ⟨?_, h2.1, h2.2.1, h2.2.2.1, h2.2.2.2⟩
  rw [(C9_quality_gate 20000 800 800).1]
  norm_num [isSquareImage, meetsSizeRequirements]

/-! ## C10: URL filter drops disallowed extensions -/

/-- C10: a URL whose path carries an extension (case-insensitively)
outside {jpg, jpeg, png} — `.gif`, say — is dropped by `filterImageUrls`.
The filter is a pure list predicate (`urlFilterKeeps`); no network request
or other side effect exists in the model because the source performs
none. -/
theorem C10_filter_drops_bad_extension (urls : List Url) (u : Url)
    (h1 : u.valid = true)
    (h2 : toLower (extname u.pathname) ≠ "")
    (h3 : isAllowedExtension (toLower (extname u.pathname)) = false) :
    u ∉ filterImageUrls urls := by
  intro hmem
  have hk : urlFilterKeeps u = true := (List.mem_filter.mp hmem).2
  have hext : getFileExtension u = toLower (extname u.pathname) := by
    simp [getFileExtension, h1, h2]
  have hfalse : urlFilterKeeps u = false := by
    simp [urlFilterKeeps, h1, hext, h3]
  rw [hfalse] at hk
  cases hk

/-- C10, witnessed: the `.gif` URL of the spec's Scenario E is dropped. -/
theorem C10_filter_drops_bad_extension_witness :
    gifUrl ∉ filterImageUrls [gifUrl] :=
  C10_filter_drops_bad_extension [gifUrl] gifUrl rfl (by decide) (by decide)

end ISADS
